import Mathlib

/-!
Shallow embedding of `scrobbles-to-lb-import.py`: a converter from a Last.fm
scrobbles JSON export to a ListenBrainz JSONL import file packaged in a zip
archive.  JSON values are modelled by the inductive type `Json`; Python dicts
are association lists queried by first match (dicts produced by the Python JSON
parser have unique keys, so first-match and last-match lookup agree on all
inputs the program sees).  JSON numbers are split into integer literals
(`Json.int`) and numbers the Python parser reads as doubles (`Json.float`):
a finite double carries its exact rational value, while a literal whose
magnitude overflows the double range (such as `1e999`) parses to an infinite
double, modelled by the `PyFloat.inf`/`PyFloat.negInf` constructors.  `NaN`
is not reachable from a strict JSON number literal, so it is not modelled.
-/

/-- The values a strict JSON number literal can give the Python `float`
type: a finite double (carried as its exact rational value) or an overflow
to positive or negative infinity. -/
inductive PyFloat where
  | finite (q : Rat)
  | inf
  | negInf

inductive Json where
  | null
  | bool (b : Bool)
  | str (s : String)
  | int (n : Int)
  | float (f : PyFloat)
  | arr (xs : List Json)
  | obj (kvs : List (String × Json))

/-- Dictionary lookup: `some v` when the key is present, `none` when absent
(Python `k in d` distinguishes a key that is present with value `None` from an
absent key, so the model keeps both). -/
def getKey : List (String × Json) → String → Option Json
  | [], _ => none
  | (k, v) :: rest, key => if k = key then some v else getKey rest key

/-- Python `d.get(k)`: absent keys yield the `None` object, which coincides
with the JSON `null` value. -/
def pyGet (kvs : List (String × Json)) (key : String) : Json :=
  (getKey kvs key).getD Json.null

/-- Decimal digit character (used by the decimal renderers below). -/
def digitChar : Nat → Char
  | 0 => '0' | 1 => '1' | 2 => '2' | 3 => '3' | 4 => '4'
  | 5 => '5' | 6 => '6' | 7 => '7' | 8 => '8' | 9 => '9'
  | _ => '?'

/-- Digits of `n` in base 10, most significant first, prepended to `acc`.
The fuel argument (always `n + 1`) keeps the recursion structural. -/
def natDigitsAux : Nat → Nat → List Char → List Char
  | 0, _, acc => acc
  | fuel + 1, n, acc =>
    if n < 10 then digitChar n :: acc
    else natDigitsAux fuel (n / 10) (digitChar (n % 10) :: acc)

/-- Decimal rendering of a natural number. -/
def natRepr (n : Nat) : String := String.mk (natDigitsAux (n + 1) n [])

/-- Decimal rendering of an integer, as produced by Python for `int` values. -/
def intRepr (n : Int) : String :=
  if n < 0 then "-" ++ natRepr n.natAbs else natRepr n.natAbs

/-- Models Python `str(value)` on JSON-decoded values.  `str` on `None`,
booleans and integers is rendered exactly; the renderings of floats, lists and
dicts are abstracted (no claim depends on them: the program only consults
`str` through `get_text`, and only the emptiness of the result matters for
eligibility, while emitted names coming from non-string scalars never appear
in the pinned output of any claim output). -/
def pyStr : Json → String
  | .null => "None"
  | .str s => s
  | .bool true => "True"
  | .bool false => "False"
  | .int n => intRepr n
  | .float (.finite q) => intRepr q.num ++ "/" ++ natRepr q.den
  | .float .inf => "inf"
  | .float .negInf => "-inf"
  | .arr _ => "[...]"
  | .obj _ => "\x7b...\x7d"

/-- Source `get_text` (lines 24-42): extract text from Last.fm-style fields.
`None → None`; `str → itself`; `dict → d["#text"]` when present (`None` and
strings returned as-is, anything else via `str`); any other value via `str`. -/
def get_text : Json → Option String
  | .null => none
  | .str s => some s
  | .obj kvs =>
    match getKey kvs "#text" with
    | none => none
    | some .null => none
    | some (.str s) => some s
    | some v => some (pyStr v)
  | v => some (pyStr v)

/-- Truthiness of a Python `Optional[str]`: `None` and `""` are falsy. -/
def truthyStr : Option String → Bool
  | none => false
  | some s => s != ""

/-- Python exceptions that `int()` can raise on a JSON-decoded value:
`TypeError` for `None`, lists and dicts, `ValueError` for unparseable
strings, and `OverflowError` for infinite floats. -/
inductive PyErr where
  | typeError
  | valueError
  | overflowError

/-- Code points of the characters `int(str)` strips as whitespace (the
CPython Unicode whitespace set). -/
def pyWsCodes : List Nat :=
  [0x9, 0xa, 0xb, 0xc, 0xd, 0x20, 0x85, 0xa0, 0x1680,
   0x2000, 0x2001, 0x2002, 0x2003, 0x2004, 0x2005, 0x2006, 0x2007,
   0x2008, 0x2009, 0x200a, 0x2028, 0x2029, 0x202f, 0x205f, 0x3000]

/-- Whether `int(str)` strips this character as whitespace. -/
def pyWs (c : Char) : Bool := pyWsCodes.contains c.toNat

/-- First code points of the runs of ten decimal digits (Unicode category
Nd) that `int(str)` accepts: each run assigns the values 0 through 9 to ten
consecutive code points, ASCII `0x30` first. -/
def pyDigitStarts : List Nat :=
  [48, 1632, 1776, 1984, 2406, 2534, 2662, 2790, 2918, 3046, 3174, 3302,
   3430, 3558, 3664, 3792, 3872, 4160, 4240, 6112, 6160, 6470, 6608, 6784,
   6800, 6992, 7088, 7232, 7248, 42528, 43216, 43264, 43472, 43504, 43600,
   44016, 65296, 66720, 68912, 69734, 69872, 69942, 70096, 70384, 70736,
   70864, 71248, 71360, 71472, 71904, 72016, 72784, 73040, 73120, 92768,
   92864, 93008, 120782, 120792, 120802, 120812, 120822, 123200, 123632,
   125264, 130032]

/-- The decimal value of a character under `int(str)`, or `none` when the
character is not a decimal digit. -/
def pyDigitVal (c : Char) : Option Nat :=
  match pyDigitStarts.find? (fun s => decide (s ≤ c.toNat ∧ c.toNat < s + 10)) with
  | some s => some (c.toNat - s)
  | none => none

/-- Digits of a Python integer literal after the first digit: single
underscores are permitted between digits only. -/
def pyDigitsAux : List Char → Nat → Option Nat
  | [], acc => some acc
  | '_' :: c :: rest, acc =>
    match pyDigitVal c with
    | some d => pyDigitsAux rest (acc * 10 + d)
    | none => none
  | ['_'], _ => none
  | c :: rest, acc =>
    match pyDigitVal c with
    | some d => pyDigitsAux rest (acc * 10 + d)
    | none => none

/-- A nonempty run of decimal digits with optional medial underscores. -/
def pyDigits : List Char → Option Nat
  | [] => none
  | c :: rest =>
    match pyDigitVal c with
    | some d => pyDigitsAux rest d
    | none => none

/-- Models Python `int(s)` for a string `s`: optional surrounding whitespace,
optional ASCII sign, then a run of Unicode decimal digits with optional
medial underscores. -/
def pyIntOfString (s : String) : Option Int :=
  let cs := ((s.data.dropWhile pyWs).reverse.dropWhile pyWs).reverse
  match cs with
  | '+' :: rest => (pyDigits rest).map Int.ofNat
  | '-' :: rest => (pyDigits rest).map (fun n => -(n : Int))
  | _ => (pyDigits cs).map Int.ofNat

/-- Models Python `int(value)` on a JSON-decoded value.  Booleans are a
subclass of `int` (`True → 1`), finite floats truncate toward zero
(`Int.tdiv` is truncated division), infinite floats raise `OverflowError`,
strings are parsed as integer literals, and `None`, lists and dicts raise
`TypeError`. -/
def pyInt : Json → Except PyErr Int
  | .null => .error .typeError
  | .bool b => .ok (if b then 1 else 0)
  | .int n => .ok n
  | .float (.finite q) => .ok (q.num.tdiv q.den)
  | .float .inf => .error .overflowError
  | .float .negInf => .error .overflowError
  | .str s =>
    match pyIntOfString s with
    | some n => .ok n
    | none => .error .valueError
  | .arr _ => .error .typeError
  | .obj _ => .error .typeError

/-- Source `_ensure_list` (lines 45-51): `None → []`, a list → itself, any
other value → a one-element list wrapping it. -/
def _ensure_list : Json → List Json
  | .null => []
  | .arr xs => xs
  | v => [v]

/-- One-level flattening of a list payload (lines 67-72): each element that is
itself a list contributes its elements, every other element contributes
itself. -/
def flattenOne : List Json → List Json
  | [] => []
  | .arr ys :: rest => ys ++ flattenOne rest
  | x :: rest => x :: flattenOne rest

/-- Returns `some kvs` exactly when the value is a mapping (Python
`isinstance(x, dict)`), handing over its entries. -/
def asObj : Json → Option (List (String × Json))
  | .obj kvs => some kvs
  | _ => none

/-- Source `flatten_tracks` (lines 54-82): normalize the raw payload to a list
of track dicts.  A list payload is flattened one level; a dict payload yields
`recenttracks.track` (ensure-listed) when `recenttracks` is a dict, else its
`track` value (ensure-listed) when the key `track` exists, else the dict
itself; anything else yields `[]`.  Finally only dict entries are kept. -/
def flatten_tracks (payload : Json) : List (List (String × Json)) :=
  let items : List Json :=
    match payload with
    | .arr xs => flattenOne xs
    | .obj kvs =>
      match pyGet kvs "recenttracks" with
      | .obj rt => _ensure_list (pyGet rt "track")
      | _ =>
        match getKey kvs "track" with
        | some v => _ensure_list v
        | none => [Json.obj kvs]
    | _ => []
  items.filterMap asObj

/-- The now-playing test of lines 90-91: the `@attr` entry of the record value is a dict
whose `nowplaying` entry equals the string `"true"` (Python `==` between a
string and any non-string value, including `True`, is `False`). -/
def is_nowplaying (t : List (String × Json)) : Bool :=
  match pyGet t "@attr" with
  | .obj a =>
    match pyGet a "nowplaying" with
    | .str s => s = "true"
    | _ => false
  | _ => false

/-- Source `track_to_listen` (lines 85-121): convert one track dict to a
listen dict (`some`), or skip it (`none`).  The result is `Except`-valued to
record the exception behavior: the `try/except` of lines 98-101 catches
exactly `TypeError` and `ValueError`, so the `OverflowError` raised by
`int()` on an infinite float propagates out of the function as `.error`. -/
def track_to_listen (t : List (String × Json)) : Except PyErr (Option Json) :=
  if is_nowplaying t then .ok none
  else
    match pyGet t "date" with
    | .obj d =>
      match getKey d "uts" with
      | none => .ok none
      | some u =>
        match pyInt u with
        | .error .typeError => .ok none
        | .error .valueError => .ok none
        | .error .overflowError => .error .overflowError
        | .ok listened_at =>
          let track_name := get_text (pyGet t "name")
          let artist_name := get_text (pyGet t "artist")
          let album_name := get_text (pyGet t "album")
          if truthyStr track_name = false ∨ truthyStr artist_name = false then
            .ok none
          else
            let md : List (String × Json) :=
              [("track_name", Json.str (track_name.getD "")),
               ("artist_name", Json.str (artist_name.getD ""))]
            let md :=
              if truthyStr album_name then
                md ++ [("release_name", Json.str (album_name.getD ""))]
              else md
            .ok (some (Json.obj
              [("listened_at", Json.int listened_at),
               ("track_metadata", Json.obj md)]))
    | _ => .ok none

/-- The conversion loop of `write_listens_jsonl` (lines 131-139): convert each
track, keep the successful listens in order; an uncaught exception in the loop
would propagate. -/
def convertAll : List (List (String × Json)) → Except PyErr (List Json)
  | [] => .ok []
  | t :: ts =>
    match track_to_listen t with
    | .error e => .error e
    | .ok lopt =>
      match convertAll ts with
      | .error e => .error e
      | .ok rest =>
        .ok (match lopt with | some x => x :: rest | none => rest)

def hexDigit : Nat → Char
  | 10 => 'a' | 11 => 'b' | 12 => 'c' | 13 => 'd' | 14 => 'e' | 15 => 'f'
  | n => digitChar n

/-- JSON string escaping of one character (`ensure_ascii=False`): `"`, `\`
and the named control characters get two-character escapes, other control
characters below `0x20` get `\u00xx`, everything else — including all
non-ASCII characters — is emitted verbatim. -/
def escChar (c : Char) : List Char :=
  if c = '\\' then ['\\', '\\']
  else if c = '"' then ['\\', '"']
  else if c = '\n' then ['\\', 'n']
  else if c = '\r' then ['\\', 'r']
  else if c = '\t' then ['\\', 't']
  else if c = '\x08' then ['\\', 'b']
  else if c = '\x0c' then ['\\', 'f']
  else if c.toNat < 0x20 then
    ['\\', 'u', '0', '0', hexDigit (c.toNat / 16), hexDigit (c.toNat % 16)]
  else [c]

def escList : List Char → List Char
  | [] => []
  | c :: cs => escChar c ++ escList cs

/-- JSON string escaping, lifted to strings. -/
def escString (s : String) : String := String.mk (escList s.data)

mutual

/-- Models Python `json.dumps(value, ensure_ascii=False)` with the default
separators `", "` and `": "`: objects keep insertion order, strings escape
only `"`, `\` and control characters, non-ASCII characters are preserved.
Float rendering is abstracted via `pyStr` (no emitted listen contains a
float: `listened_at` is an `int` and all other values are strings). -/
def dumps : Json → String
  | .null => "null"
  | .bool true => "true"
  | .bool false => "false"
  | .str s => "\"" ++ escString s ++ "\""
  | .int n => intRepr n
  | .float q => pyStr (.float q)
  | .arr xs => "[" ++ dumpsArr xs ++ "]"
  | .obj kvs => "\x7b" ++ dumpsObj kvs ++ "\x7d"

def dumpsArr : List Json → String
  | [] => ""
  | [x] => dumps x
  | x :: y :: rest => dumps x ++ ", " ++ dumpsArr (y :: rest)

def dumpsObj : List (String × Json) → String
  | [] => ""
  | [(k, v)] => "\"" ++ escString k ++ "\": " ++ dumps v
  | (k, v) :: y :: rest =>
    "\"" ++ escString k ++ "\": " ++ dumps v ++ ", " ++ dumpsObj (y :: rest)

end

/-- The serialization of the accepted listens (line 138): the output file
receives one `json.dumps` line per listen, in order, each terminated by a
single `"\n"`. -/
def serializeListens : List Json → String
  | [] => ""
  | l :: ls => dumps l ++ "\n" ++ serializeListens ls

/-- Source `write_listens_jsonl` (lines 124-141), from the parsed input value:
the text written to the output file paired with the returned count. -/
def write_listens_jsonl (raw : Json) : Except PyErr (String × Nat) :=
  match convertAll (flatten_tracks raw) with
  | .error e => .error e
  | .ok ls => .ok (serializeListens ls, ls.length)

/-- An archive as a list of named entries with their (decompressed)
contents.  Models the relevant behavior of the Python `zipfile` module: opening with
mode `"w"` starts from an empty archive, and `zf.write(path, arcname)` adds
one entry named `arcname` whose decompressed contents are the bytes of
`path`; DEFLATE compression is lossless. -/
structure ZipArchive where
  entries : List (String × String)

/-- Source `make_import_zip` (lines 144-147): a fresh archive with the single
entry `listens.jsonl` holding the JSONL text. -/
def make_import_zip (jsonlContents : String) : ZipArchive :=
  ⟨[("listens.jsonl", jsonlContents)]⟩

/-- Source `main` (lines 150-159) after the input file is parsed: the JSONL
text, the reported count, and the archive.  Pure in the parsed input. -/
def run_pipeline (raw : Json) : Except PyErr ((String × Nat) × ZipArchive) :=
  match write_listens_jsonl raw with
  | .error e => .error e
  | .ok out => .ok (out, make_import_zip out.1)

/-- Holds exactly on list values. -/
def Json.isArr : Json → Bool
  | .arr _ => true
  | _ => false

/-- Holds exactly on mapping values. -/
def Json.isObj : Json → Bool
  | .obj _ => true
  | _ => false

/-- The eligibility test of line 95: the `date` value of the record is not a
dict, or it lacks the key `uts`. -/
def date_uts_missing (t : List (String × Json)) : Bool :=
  match pyGet t "date" with
  | .obj d => (getKey d "uts").isNone
  | _ => true

/-- Number of newline characters in a string (the number of lines the text
contributes to a JSONL file). -/
def countNl (s : String) : Nat := s.data.count '\n'

/-- The round-trip input of the spec: two tracks, the second one flagged as
now playing. -/
def c4_input : Json :=
  Json.obj [("recenttracks", Json.obj [("track", Json.arr
    [Json.obj [("name", Json.str "Song A"), ("artist", Json.str "Artist A"),
               ("album", Json.obj [("#text", Json.str "Album A")]),
               ("date", Json.obj [("uts", Json.str "1000")])],
     Json.obj [("name", Json.str "Song B"), ("artist", Json.str "Artist B"),
               ("date", Json.obj [("uts", Json.str "2000")]),
               ("@attr", Json.obj [("nowplaying", Json.str "true")])]])])]

/-- The single listen record the round-trip input must produce. -/
def c4_listen : Json :=
  Json.obj [("listened_at", Json.int 1000), ("track_metadata", Json.obj
    [("track_name", Json.str "Song A"), ("artist_name", Json.str "Artist A"),
     ("release_name", Json.str "Album A")])]

/-- A plain valid track record without album, used to instantiate the listen
field invariant. -/
def c1_track : List (String × Json) :=
  [("name", Json.str "N"), ("artist", Json.str "A"),
   ("date", Json.obj [("uts", Json.int 7)])]

/-- A record with a fractional `uts` whose name and artist are fine but that
carries the now-playing marker. -/
def c10_np : List (String × Json) :=
  [("name", Json.str "Song C"), ("artist", Json.str "Artist C"),
   ("date", Json.obj [("uts", Json.float (PyFloat.finite (10009/10)))]),
   ("@attr", Json.obj [("nowplaying", Json.str "true")])]

lemma truthyStr_eq_true {o : Option String} (h : truthyStr o = true) :
    ∃ s, o = some s ∧ s ≠ "" := by
  cases o with
  | none => simp [truthyStr] at h
  | some s => exact ⟨s, rfl, by simpa [truthyStr] using h⟩

/-- Anatomy of a successful conversion: the eligibility checks passed and the
emitted listen is exactly the dict built in lines 110-121. -/
lemma track_to_listen_ok_some (t : List (String × Json)) (l : Json)
    (h : track_to_listen t = Except.ok (some l)) :
    is_nowplaying t = false ∧
    ∃ (d : List (String × Json)) (u : Json) (n : Int) (tn an : String),
      pyGet t "date" = Json.obj d ∧ getKey d "uts" = some u ∧
      pyInt u = Except.ok n ∧
      get_text (pyGet t "name") = some tn ∧ tn ≠ "" ∧
      get_text (pyGet t "artist") = some an ∧ an ≠ "" ∧
      ((truthyStr (get_text (pyGet t "album")) = false ∧
        l = Json.obj [("listened_at", Json.int n), ("track_metadata", Json.obj
          [("track_name", Json.str tn), ("artist_name", Json.str an)])]) ∨
       (∃ al : String, get_text (pyGet t "album") = some al ∧ al ≠ "" ∧
        l = Json.obj [("listened_at", Json.int n), ("track_metadata", Json.obj
          [("track_name", Json.str tn), ("artist_name", Json.str an),
           ("release_name", Json.str al)])])) := by
  unfold track_to_listen at h
  split at h
  · simp at h
  · rename_i hnp
    split at h
    · rename_i d hd
      split at h
      · simp at h
      · rename_i u hu
        split at h
        · simp at h
        · simp at h
        · simp at h
        · rename_i n hn
          have h4 : (if truthyStr (get_text (pyGet t "name")) = false ∨
                        truthyStr (get_text (pyGet t "artist")) = false then
                      (Except.ok none : Except PyErr (Option Json))
                    else Except.ok (some (Json.obj
                      [("listened_at", Json.int n),
                       ("track_metadata", Json.obj
                         (if truthyStr (get_text (pyGet t "album")) = true then
                           [("track_name",
                              Json.str ((get_text (pyGet t "name")).getD "")),
                            ("artist_name",
                              Json.str ((get_text (pyGet t "artist")).getD ""))] ++
                           [("release_name",
                              Json.str ((get_text (pyGet t "album")).getD ""))]
                          else
                           [("track_name",
                              Json.str ((get_text (pyGet t "name")).getD "")),
                            ("artist_name",
                              Json.str ((get_text (pyGet t "artist")).getD ""))]))]))) =
                    Except.ok (some l) := h
          clear h
          split at h4
          · simp at h4
          · rename_i hcond
            simp only [not_or, Bool.not_eq_false] at hcond
            obtain ⟨hname, hartist⟩ := hcond
            obtain ⟨tn, htn, htn0⟩ := truthyStr_eq_true hname
            obtain ⟨an, han, han0⟩ := truthyStr_eq_true hartist
            simp only [Except.ok.injEq, Option.some.injEq] at h4
            subst h4
            refine ⟨by simpa using hnp, d, u, n, tn, an, hd, hu, hn,
              htn, htn0, han, han0, ?_⟩
            cases halb : truthyStr (get_text (pyGet t "album")) with
            | false =>
              refine Or.inl ⟨rfl, ?_⟩
              rw [htn, han]
              simp
            | true =>
              obtain ⟨al, hal, hal0⟩ := truthyStr_eq_true halb
              refine Or.inr ⟨al, hal, hal0, ?_⟩
              rw [htn, han, hal]
              simp
    · simp at h

/-- Claim C4: on the two-track round-trip input, the pipeline produces exactly
one listen record, equal to the pinned record (Song A at 1000 with release
name Album A), and the returned count is 1. -/
theorem claim_C4_roundtrip :
    convertAll (flatten_tracks c4_input) = Except.ok [c4_listen] ∧
    write_listens_jsonl c4_input = Except.ok (serializeListens [c4_listen], 1) :=
  ⟨rfl, rfl⟩

/-- Claim C5: whatever JSONL text the serializer produces for an input, the
archive built from it has exactly one entry, named `listens.jsonl`, whose
(decompressed) contents are that same text. -/
theorem claim_C5_archive (raw : Json) (blob : String) (n : Nat)
    (_h : write_listens_jsonl raw = Except.ok (blob, n)) :
    (make_import_zip blob).entries = [("listens.jsonl", blob)] := rfl

/-- Witness for claim C5 at the empty-object input. -/
theorem claim_C5_archive_witness :
    (make_import_zip (serializeListens [])).entries =
      [("listens.jsonl", serializeListens [])] :=
  claim_C5_archive (Json.obj []) (serializeListens []) 0 rfl

/-- Claim C9: the pipeline is a pure function of the parsed input — it reads
no clock, randomness or other ambient state — so two runs on the same
unchanged input yield byte-identical JSONL output and identical archives. -/
theorem claim_C9_deterministic (raw₁ raw₂ : Json) (h : raw₁ = raw₂) :
    write_listens_jsonl raw₁ = write_listens_jsonl raw₂ ∧
    run_pipeline raw₁ = run_pipeline raw₂ := by
  subst h; exact ⟨rfl, rfl⟩

/-- Witness for claim C9 at the round-trip input. -/
theorem claim_C9_deterministic_witness :
    write_listens_jsonl c4_input = write_listens_jsonl c4_input ∧
    run_pipeline c4_input = run_pipeline c4_input :=
  claim_C9_deterministic c4_input c4_input rfl

/-- Claim C7: wrapping a single track mapping under `track` is normalized
exactly like the one-element list of it, and the ensure-list rule sends `None`
to `[]`, keeps lists unchanged, and wraps any other value. -/
theorem claim_C7_ensure_list :
    (∀ m : List (String × Json),
      flatten_tracks (Json.obj [("track", Json.obj m)]) =
        flatten_tracks (Json.obj [("track", Json.arr [Json.obj m])])) ∧
    _ensure_list Json.null = [] ∧
    (∀ xs : List Json, _ensure_list (Json.arr xs) = xs) ∧
    (∀ v : Json, v.isArr = false → (v = Json.null → False) →
      _ensure_list v = [v]) := by
  refine ⟨fun m => rfl, rfl, fun xs => rfl, fun v ha hn => ?_⟩
  cases v with
  | null => exact absurd rfl hn
  | arr xs => simp [Json.isArr] at ha
  | _ => rfl

/-- Witness for claim C7 at a scalar value. -/
theorem claim_C7_ensure_list_witness :
    _ensure_list (Json.int 5) = [Json.int 5] :=
  claim_C7_ensure_list.2.2.2 (Json.int 5) rfl (fun h => Json.noConfusion h)

/-- Claim C3: any record whose `@attr` dict maps `nowplaying` to the string
`"true"` is skipped, regardless of every other field; the comparison is a
literal string comparison, so a record carrying the boolean `true` instead is
not skipped by this check (here it converts successfully). -/
theorem claim_C3_nowplaying :
    (∀ (t : List (String × Json)) (a : List (String × Json)),
      pyGet t "@attr" = Json.obj a → pyGet a "nowplaying" = Json.str "true" →
      track_to_listen t = Except.ok none) ∧
    track_to_listen
      [("name", Json.str "Song B"), ("artist", Json.str "Artist B"),
       ("date", Json.obj [("uts", Json.str "2000")]),
       ("@attr", Json.obj [("nowplaying", Json.bool true)])] =
      Except.ok (some (Json.obj
        [("listened_at", Json.int 2000), ("track_metadata", Json.obj
          [("track_name", Json.str "Song B"),
           ("artist_name", Json.str "Artist B")])])) := by
  refine ⟨fun t a h1 h2 => ?_, rfl⟩
  unfold track_to_listen is_nowplaying
  rw [h1]
  simp [h2]

/-- Witness for claim C3 at a minimal now-playing record. -/
theorem claim_C3_nowplaying_witness :
    track_to_listen [("@attr", Json.obj [("nowplaying", Json.str "true")])] =
      Except.ok none :=
  claim_C3_nowplaying.1 _ _ rfl rfl

/-- Claim C2 (code bug evidence): the except clause of lines 98-101 catches
only `TypeError` and `ValueError`, but `int()` on the infinite float produced
by the valid JSON literal `1e999` raises `OverflowError`, so a record whose
`uts` cannot be interpreted as an integer crashes the run instead of being
skipped. -/
theorem claim_C2_uts_overflow :
    pyInt (Json.float PyFloat.inf) = Except.error PyErr.overflowError ∧
    track_to_listen
      [("name", Json.str "Song D"), ("artist", Json.str "Artist D"),
       ("date", Json.obj [("uts", Json.float PyFloat.inf)])] =
      Except.error PyErr.overflowError :=
  ⟨rfl, rfl⟩

/-- Claim C1: every emitted listen has exactly the fields `listened_at`
(integer), `track_metadata.track_name` and `track_metadata.artist_name`
(non-empty strings), plus `track_metadata.release_name` exactly when album
text extraction yields a non-empty string; and emission implies every
eligibility check passed. -/
theorem claim_C1_listen_fields (t : List (String × Json)) (l : Json)
    (h : track_to_listen t = Except.ok (some l)) :
    is_nowplaying t = false ∧
    ∃ (d : List (String × Json)) (u : Json) (n : Int) (tn an : String),
      pyGet t "date" = Json.obj d ∧ getKey d "uts" = some u ∧
      pyInt u = Except.ok n ∧
      get_text (pyGet t "name") = some tn ∧ tn ≠ "" ∧
      get_text (pyGet t "artist") = some an ∧ an ≠ "" ∧
      ((truthyStr (get_text (pyGet t "album")) = false ∧
        l = Json.obj [("listened_at", Json.int n), ("track_metadata", Json.obj
          [("track_name", Json.str tn), ("artist_name", Json.str an)])]) ∨
       (∃ al : String, get_text (pyGet t "album") = some al ∧ al ≠ "" ∧
        l = Json.obj [("listened_at", Json.int n), ("track_metadata", Json.obj
          [("track_name", Json.str tn), ("artist_name", Json.str an),
           ("release_name", Json.str al)])])) :=
  track_to_listen_ok_some t l h

/-- Witness for claim C1 at a minimal valid record without album. -/
theorem claim_C1_listen_fields_witness :
    is_nowplaying c1_track = false ∧
    ∃ (d : List (String × Json)) (u : Json) (n : Int) (tn an : String),
      pyGet c1_track "date" = Json.obj d ∧ getKey d "uts" = some u ∧
      pyInt u = Except.ok n ∧
      get_text (pyGet c1_track "name") = some tn ∧ tn ≠ "" ∧
      get_text (pyGet c1_track "artist") = some an ∧ an ≠ "" ∧
      ((truthyStr (get_text (pyGet c1_track "album")) = false ∧
        Json.obj [("listened_at", Json.int 7), ("track_metadata", Json.obj
          [("track_name", Json.str "N"), ("artist_name", Json.str "A")])] =
        Json.obj [("listened_at", Json.int n), ("track_metadata", Json.obj
          [("track_name", Json.str tn), ("artist_name", Json.str an)])]) ∨
       (∃ al : String, get_text (pyGet c1_track "album") = some al ∧ al ≠ "" ∧
        Json.obj [("listened_at", Json.int 7), ("track_metadata", Json.obj
          [("track_name", Json.str "N"), ("artist_name", Json.str "A")])] =
        Json.obj [("listened_at", Json.int n), ("track_metadata", Json.obj
          [("track_name", Json.str tn), ("artist_name", Json.str an),
           ("release_name", Json.str al)])])) :=
  claim_C1_listen_fields c1_track
    (Json.obj [("listened_at", Json.int 7), ("track_metadata", Json.obj
      [("track_name", Json.str "N"), ("artist_name", Json.str "A")])]) rfl

/-- Claim C8 (code bug evidence): the converter is not total on valid JSON —
the literal `1e999` parses to an infinite double, `int()` raises
`OverflowError`, the except clause of lines 98-101 does not catch it, and the
whole run aborts. -/
theorem claim_C8_converter_crash :
    track_to_listen [("date", Json.obj [("uts", Json.float PyFloat.inf)])] =
      Except.error PyErr.overflowError ∧
    write_listens_jsonl (Json.obj [("track", Json.obj
      [("date", Json.obj [("uts", Json.float PyFloat.inf)])])]) =
      Except.error PyErr.overflowError :=
  ⟨rfl, rfl⟩

/-- Counterexample to claim C10 as stated: this record has a fractional
`date.uts` and non-empty name and artist text, yet the converter skips it,
because it also carries the now-playing marker the claim ignores. -/
theorem claim_C10_counterexample :
    pyGet c10_np "date" = Json.obj [("uts", Json.float (PyFloat.finite (10009/10)))] ∧
    ((10009 : Rat)/10).den ≠ 1 ∧
    truthyStr (get_text (pyGet c10_np "name")) = true ∧
    truthyStr (get_text (pyGet c10_np "artist")) = true ∧
    track_to_listen c10_np = Except.ok none :=
  ⟨rfl, by norm_num, rfl, rfl, rfl⟩

/-- Claim C10 (amended): for every record that is not flagged now-playing,
whose `date.uts` is a JSON number with a fractional part, and whose name and
artist extract to non-empty text, the converter emits a listen whose
`listened_at` is that number truncated toward zero (`Int.tdiv` truncates
toward zero). -/
theorem claim_C10_fractional_truncates
    (t d : List (String × Json)) (q : Rat)
    (hnp : is_nowplaying t = false)
    (hd : pyGet t "date" = Json.obj d)
    (hu : getKey d "uts" = some (Json.float (PyFloat.finite q)))
    (_hq : q.den ≠ 1)
    (hname : truthyStr (get_text (pyGet t "name")) = true)
    (hartist : truthyStr (get_text (pyGet t "artist")) = true) :
    ∃ md, track_to_listen t = Except.ok (some (Json.obj
      [("listened_at", Json.int (q.num.tdiv q.den)),
       ("track_metadata", Json.obj md)])) := by
  unfold track_to_listen
  simp only [hnp, Bool.false_eq_true, if_false]
  rw [hd]
  split
  · rename_i d2 hd2
    injection hd2 with hdd
    subst hdd
    rw [hu]
    split
    · rename_i hu2
      exact Option.noConfusion hu2
    · rename_i u2 hu2
      injection hu2 with huu
      subst huu
      split
      · rename_i he
        simp [pyInt] at he
      · rename_i he
        simp [pyInt] at he
      · rename_i he
        simp [pyInt] at he
      · rename_i n hn
        simp only [pyInt, Except.ok.injEq] at hn
        subst hn
        simp only [hname, hartist]
        exact ⟨_, rfl⟩
  · rename_i hx
    exact absurd rfl (hx d)

/-- Witness for the amended claim C10 at a record with `uts` 1000.9. -/
theorem claim_C10_fractional_truncates_witness :
    ∃ md, track_to_listen
      [("name", Json.str "Song C"), ("artist", Json.str "Artist C"),
       ("date", Json.obj [("uts", Json.float (PyFloat.finite (10009/10)))])] =
      Except.ok (some (Json.obj
        [("listened_at", Json.int 1000),
         ("track_metadata", Json.obj md)])) := by
  have e : ((10009 : Rat)/10).num.tdiv (((10009 : Rat)/10).den : Int) = 1000 := by
    norm_num [Int.tdiv]
  have h := claim_C10_fractional_truncates
    [("name", Json.str "Song C"), ("artist", Json.str "Artist C"),
     ("date", Json.obj [("uts", Json.float (PyFloat.finite (10009/10)))])]
    [("uts", Json.float (PyFloat.finite (10009/10)))]
    (10009/10) rfl rfl rfl (by norm_num) rfl rfl
  rw [e] at h
  exact h

lemma digitChar_ne_nl (n : Nat) : digitChar n ≠ '\n' := by
  unfold digitChar; split <;> decide

lemma hexDigit_ne_nl (n : Nat) : hexDigit n ≠ '\n' := by
  unfold hexDigit; split <;> first | decide | exact digitChar_ne_nl _

lemma escChar_nl (c : Char) : '\n' ∉ escChar c := by
  intro hmem
  unfold escChar at hmem
  repeat' split at hmem
  · revert hmem; decide
  · revert hmem; decide
  · revert hmem; decide
  · revert hmem; decide
  · revert hmem; decide
  · revert hmem; decide
  · revert hmem; decide
  · simp only [List.mem_cons, List.not_mem_nil, or_false] at hmem
    rcases hmem with h | h | h | h | h | h
    · exact absurd h (by decide)
    · exact absurd h (by decide)
    · exact absurd h (by decide)
    · exact absurd h (by decide)
    · exact hexDigit_ne_nl _ h.symm
    · exact hexDigit_ne_nl _ h.symm
  · rename_i h1 h2 h3 h4 h5 h6 h7 h8
    simp only [List.mem_singleton] at hmem
    exact h3 hmem.symm

lemma escList_nl (cs : List Char) : '\n' ∉ escList cs := by
  induction cs with
  | nil => simp [escList]
  | cons c cs ih =>
    intro h
    rcases List.mem_append.mp (by simpa [escList] using h) with h | h
    · exact escChar_nl c h
    · exact ih h

lemma natDigitsAux_ne_nl (fuel : Nat) :
    ∀ (n : Nat) (acc : List Char), (∀ c ∈ acc, c ≠ '\n') →
    ∀ c ∈ natDigitsAux fuel n acc, c ≠ '\n' := by
  induction fuel with
  | zero =>
    intro n acc hacc c hc
    exact hacc c (by simpa [natDigitsAux] using hc)
  | succ f ih =>
    intro n acc hacc c hc
    unfold natDigitsAux at hc
    split at hc
    · rcases List.mem_cons.mp hc with h | h
      · rw [h]; exact digitChar_ne_nl n
      · exact hacc c h
    · refine ih _ _ (fun x hx => ?_) c hc
      rcases List.mem_cons.mp hx with h | h
      · rw [h]; exact digitChar_ne_nl _
      · exact hacc x h

lemma natRepr_nl (n : Nat) : '\n' ∉ (natRepr n).data := fun h =>
  natDigitsAux_ne_nl (n + 1) n [] (by simp) '\n' h rfl

lemma intRepr_nl (n : Int) : '\n' ∉ (intRepr n).data := by
  unfold intRepr
  split
  · intro h
    rcases List.mem_append.mp h with h | h
    · exact absurd h (by decide)
    · exact natRepr_nl _ h
  · exact natRepr_nl _

lemma countNl_append (a b : String) :
    countNl (a ++ b) = countNl a + countNl b := by
  simp [countNl, String.data_append, List.count_append]

lemma countNl_escString (s : String) : countNl (escString s) = 0 :=
  List.count_eq_zero.mpr (escList_nl s.data)

lemma countNl_intRepr (n : Int) : countNl (intRepr n) = 0 :=
  List.count_eq_zero.mpr (intRepr_nl n)

lemma countNl_dumps_listen (n : Int) (tn an : String)
    (rest : List (String × Json))
    (hrest : rest = [] ∨ ∃ al : String, rest = [("release_name", Json.str al)]) :
    countNl (dumps (Json.obj [("listened_at", Json.int n),
      ("track_metadata", Json.obj ([("track_name", Json.str tn),
        ("artist_name", Json.str an)] ++ rest))])) = 0 := by
  rcases hrest with h | ⟨al, h⟩ <;> subst h <;>
    simp [dumps, dumpsObj, countNl_append, countNl_escString, countNl_intRepr] <;>
    decide

lemma countNl_newline : countNl "\n" = 1 := rfl

lemma countNl_serializeListens (ls : List Json)
    (h : ∀ l ∈ ls, countNl (dumps l) = 0) :
    countNl (serializeListens ls) = ls.length := by
  induction ls with
  | nil => rfl
  | cons l ls ih =>
    have h1 := h l (List.mem_cons_self l ls)
    have h2 : ∀ x ∈ ls, countNl (dumps x) = 0 :=
      fun x hx => h x (List.mem_cons_of_mem _ hx)
    simp only [serializeListens, countNl_append, h1, ih h2, countNl_newline,
      List.length_cons]
    omega

lemma convertAll_ok_mem (ts : List (List (String × Json))) (ls : List Json)
    (h : convertAll ts = Except.ok ls) :
    ∀ l ∈ ls, ∃ t, track_to_listen t = Except.ok (some l) := by
  induction ts generalizing ls with
  | nil =>
    simp only [convertAll, Except.ok.injEq] at h
    subst h
    simp
  | cons t ts ih =>
    intro l hl
    cases h1 : track_to_listen t with
    | error e => simp [convertAll, h1] at h
    | ok lopt =>
      cases h2 : convertAll ts with
      | error e => simp [convertAll, h1, h2] at h
      | ok ls2 =>
        cases lopt with
        | none =>
          simp only [convertAll, h1, h2, Except.ok.injEq] at h
          subst h
          exact ih ls2 h2 l hl
        | some x =>
          simp only [convertAll, h1, h2, Except.ok.injEq] at h
          subst h
          rcases List.mem_cons.mp hl with hx | hx
          · exact ⟨t, by rw [h1, hx]⟩
          · exact ih ls2 h2 l hx

lemma escChar_id {c : Char} (h1 : c ≠ '"') (h2 : c ≠ '\\')
    (h3 : 32 ≤ c.toNat) : escChar c = [c] := by
  unfold escChar
  rw [if_neg h2, if_neg h1,
    if_neg (fun he => absurd h3 (by subst he; decide)),
    if_neg (fun he => absurd h3 (by subst he; decide)),
    if_neg (fun he => absurd h3 (by subst he; decide)),
    if_neg (fun he => absurd h3 (by subst he; decide)),
    if_neg (fun he => absurd h3 (by subst he; decide)),
    if_neg (by omega)]

lemma escList_id (cs : List Char)
    (h : ∀ c ∈ cs, c ≠ '"' ∧ c ≠ '\\' ∧ 32 ≤ c.toNat) : escList cs = cs := by
  induction cs with
  | nil => rfl
  | cons c cs ih =>
    obtain ⟨h1, h2, h3⟩ := h c (List.mem_cons_self c cs)
    simp [escList, escChar_id h1 h2 h3,
      ih (fun x hx => h x (List.mem_cons_of_mem _ hx))]

lemma escString_id (s : String)
    (h : ∀ c ∈ s.data, c ≠ '"' ∧ c ≠ '\\' ∧ 32 ≤ c.toNat) : escString s = s := by
  unfold escString
  rw [escList_id s.data h]

/-- Claim C6: a successful serialization writes one `json.dumps` line per
accepted listen, in conversion order, each terminated by a single newline —
so the newline count of the blob equals the returned count, which equals the
number of successful conversions — and string escaping leaves every
character that needs no JSON escape (in particular every non-ASCII
character) unchanged. -/
theorem claim_C6_serializer :
    (∀ (raw : Json) (blob : String) (n : Nat),
      write_listens_jsonl raw = Except.ok (blob, n) →
      ∃ ls, convertAll (flatten_tracks raw) = Except.ok ls ∧
        blob = serializeListens ls ∧ n = ls.length ∧ countNl blob = n) ∧
    (∀ s : String, (∀ c ∈ s.data, c ≠ '"' ∧ c ≠ '\\' ∧ 32 ≤ c.toNat) →
      escString s = s) := by
  constructor
  · intro raw blob n h
    cases hc : convertAll (flatten_tracks raw) with
    | error e => simp [write_listens_jsonl, hc] at h
    | ok ls =>
      simp only [write_listens_jsonl, hc, Except.ok.injEq, Prod.mk.injEq] at h
      obtain ⟨hblob, hn⟩ := h
      subst hblob
      subst hn
      refine ⟨ls, rfl, rfl, rfl, ?_⟩
      apply countNl_serializeListens
      intro l hl
      obtain ⟨t, ht⟩ := convertAll_ok_mem _ _ hc l hl
      obtain ⟨-, d, u, m, tn, an, -, -, -, -, -, -, -, hsh⟩ :=
        track_to_listen_ok_some t l ht
      rcases hsh with ⟨-, hl2⟩ | ⟨al, -, -, hl2⟩
      · subst hl2
        exact countNl_dumps_listen m tn an [] (Or.inl rfl)
      · subst hl2
        exact countNl_dumps_listen m tn an [("release_name", Json.str al)]
          (Or.inr ⟨al, rfl⟩)
  · exact fun s h => escString_id s h

/-- Witness for claim C6 at the round-trip input and a non-ASCII string. -/
theorem claim_C6_serializer_witness :
    (∃ ls, convertAll (flatten_tracks c4_input) = Except.ok ls ∧
      serializeListens [c4_listen] = serializeListens ls ∧ 1 = ls.length ∧
      countNl (serializeListens [c4_listen]) = 1) ∧
    escString "é" = "é" :=
  ⟨claim_C6_serializer.1 c4_input (serializeListens [c4_listen]) 1 rfl,
   claim_C6_serializer.2 "é" (by decide)⟩
